import Mathlib

/-!
Verification of the image-server request-resolution core (the `handler`
closure in the `server` package) and of the S3 storage adapter
(`internal/storage/storage.go`), as a shallow embedding in Lean.

Go strings are modelled as `List Char` (`GoStr`), which matches Go's
rune-level semantics for the operations used here (`strings.Split` on a
single-rune separator, the `imagePathRegex` match, `filepath.Join`,
`fmt.Sprintf` with `%d`/`%s` verbs, `strconv.Atoi`).

External collaborators (the object store and the image codec/resampler)
are parameters of the handler: a `Store` supplies the outcome of each
storage round trip, an `ImgOps` supplies decode-independent resampling
and encoding.  The handler returns, next to the HTTP response, the exact
sequence of storage/transform operations it performed (`trace`), the
error strings it logged (`log`), and the store state after a successful
upload, so that effect claims (counts of downloads/uploads, cache-hit
behaviour of a subsequent request) are statable.
-/

set_option maxHeartbeats 1000000

deriving instance DecidableEq for Except

namespace ImageServer

/-- Go strings at rune level. -/
abbrev GoStr := List Char

/-- Coerce a Lean string literal to the Go-string model. -/
def gs (s : String) : GoStr := s.data

/-! ### Go standard-library primitives used by the handler -/

/-- Go `strings.Split(s, sep)` for a single-rune separator:
splits around each occurrence of `sep`; `Split("", sep) = [""]`. -/
def goSplit (sep : Char) : GoStr → List GoStr
  | [] => [[]]
  | c :: rest =>
    let r := goSplit sep rest
    if c = sep then [] :: r
    else (c :: r.headD []) :: r.tail

/-- Go `filepath.Join`: joins the non-empty elements with `/`.
(`filepath.Join` also runs `filepath.Clean` on the result; on every input
reachable in this handler — folder prefixes and regex-validated path
segments containing no `/`, no empty `.`/`..` components and no duplicate
separators — `Clean` is the identity, so it is omitted.) -/
def joinPath (parts : List GoStr) : GoStr :=
  List.intercalate ['/'] (parts.filter (· ≠ []))

/-- Decimal digits of a natural number, as characters. -/
def natDigits (n : Nat) : GoStr := Nat.toDigits 10 n

/-- Go `fmt.Sprintf("%d", n)` for a Go `int` value. -/
def goIntStr (n : Int) : GoStr :=
  if n < 0 then '-' :: natDigits (-n).toNat else natDigits n.toNat

/-- Value of a list of decimal digit characters. -/
def digitsVal (l : List Char) : Nat :=
  l.foldl (fun a c => 10 * a + (c.toNat - 48)) 0

/-- Unsigned-part parser backing `goAtoi`: all characters must be
decimal digits and there must be at least one. -/
def goAtoiCore (l : GoStr) : Option Nat :=
  if l ≠ [] ∧ l.all Char.isDigit then some (digitsVal l) else none

/-- Go `strconv.Atoi`: optional sign, one or more decimal digits,
64-bit signed range; anything else is an error (`none`). -/
def goAtoi (s : GoStr) : Option Int :=
  match s with
  | '+' :: rest =>
    (goAtoiCore rest).bind fun n =>
      if n ≤ 2 ^ 63 - 1 then some (n : Int) else none
  | '-' :: rest =>
    (goAtoiCore rest).bind fun n =>
      if n ≤ 2 ^ 63 then some (-(n : Int)) else none
  | _ =>
    (goAtoiCore s).bind fun n =>
      if n ≤ 2 ^ 63 - 1 then some (n : Int) else none

/-- Model of `http.StatusText` for the status codes this handler produces. -/
def statusText (code : Nat) : GoStr :=
  if code = 400 then gs ("Bad Request")
  else if code = 403 then gs ("Forbidden")
  else if code = 404 then gs ("Not Found")
  else if code = 500 then gs ("Internal Server Error")
  else []

/-! ### Path validation (`imagePathRegex`)

`regexp.MustCompile("^[^/]+\\.(jpeg|jpg|png)$")`: the whole segment is one
or more non-`/` runes, a literal dot, then one of the three extensions.
Equivalently: no `/` anywhere, the segment ends in `.jpeg`, `.jpg` or
`.png`, and at least one rune precedes that suffix. -/

def validExts : List GoStr := [gs ("jpeg"), gs ("jpg"), gs ("png")]

/-- Model of `imagePathRegex.MatchString`. -/
def imagePathMatch (p : GoStr) : Bool :=
  (!p.contains '/') &&
    validExts.any fun e => List.isSuffixOf ('.' :: e) p && decide (e.length + 1 < p.length)

/-! ### Data model -/

/-- The environment configuration consumed by the handler
(`internal/envvar.EnvVar`). -/
structure EnvVar where
  bucketName : GoStr
  folderOriginal : GoStr
  folderResized : GoStr

/-- An incoming request: the `{image}` path segment and the raw `w`/`h`
query values (`none` when the parameter is absent; `q.Get` of a present
parameter may be the empty string). -/
structure Request where
  path : GoStr
  qw : Option GoStr
  qh : Option GoStr

/-- Abstract decoded pixel buffer (`image.Image`); only identity matters
to the control flow. -/
structure Img where
  id : Nat
deriving DecidableEq

/-- Result of `image.Decode` applied to a downloaded body: an image and
the detected format name, or a decode error. -/
inductive DecodeRes where
  | ok (img : Img) (format : GoStr)
  | err (msg : GoStr)
deriving DecidableEq

/-- Outcome of `storageClient.DownloadObject` on a key, composed with
`image.Decode` of the returned body (decoding is a pure function of the
downloaded bytes, so its result is carried with the download outcome). -/
inductive DownRes where
  | ok (decoded : DecodeRes) (contentType : GoStr)
  | errNotFound
  | errForbidden
  | errOther (msg : GoStr)
deriving DecidableEq

/-- Outcome of `storageClient.UploadObject` on a key. -/
inductive UpRes where
  | ok
  | errBadRequest
  | errOther (msg : GoStr)
deriving DecidableEq

/-- The object-store collaborator (`storage.Client`): per-key outcomes of
the three round trips plus the pure public-URL map. `check` returns
`Except msg Bool`: `.error` is a backend failure carrying the message the
handler logs. -/
structure Store where
  check : GoStr → Except GoStr Bool
  down : GoStr → DownRes
  up : GoStr → UpRes
  url : GoStr → GoStr

/-- The image-transform collaborator: `gift.Resize` composed with
`g.Draw`, and the two encoders (which can fail with an error message). -/
structure ImgOps where
  resize : Int → Int → Img → Img
  encodeJPEG : Img → Except GoStr (List Nat)
  encodePNG : Img → Except GoStr (List Nat)

/-- HTTP response observed by the client: `http.Error` status and body,
or a redirect status and `Location`. -/
inductive HResp where
  | err (status : Nat) (body : GoStr)
  | redirect (status : Nat) (location : GoStr)
deriving DecidableEq

/-- Status code of a response. -/
def HResp.status : HResp → Nat
  | .err s _ => s
  | .redirect s _ => s

/-- One externally visible effect of the handler. -/
inductive Op where
  | check (key : GoStr)
  | download (key : GoStr)
  | transform
  | upload (key : GoStr) (body : List Nat) (contentType : GoStr)
deriving DecidableEq

/-- What one handler invocation produced: the response, the ordered list
of effects, the logged error strings, and the store as left behind
(changed only by a successful upload). -/
structure HResult where
  resp : HResp
  trace : List Op
  log : List GoStr
  store : Store

/-! ### Key scheme

`splitPath := strings.Split(path, "."); imageName := splitPath[0];
imageFormat := splitPath[1]` (the regex guarantees at least two segments),
`originalKey := filepath.Join(envVar.FolderOriginal, path)`,
`resizedKey := filepath.Join(envVar.FolderResized, imageName,
fmt.Sprintf("w%dh%d.%s", width, height, imageFormat))`. -/

/-- Model of `splitPath[0]`: the segment before the first dot. -/
def pathName (p : GoStr) : GoStr := (goSplit '.' p).headD []

/-- Model of `splitPath[1]`: the segment between the first and second dot. -/
def pathFormat (p : GoStr) : GoStr := (goSplit '.' p).getD 1 []

/-- Key of the original object (`originalKey`). -/
def originalKeyOf (env : EnvVar) (path : GoStr) : GoStr :=
  joinPath [env.folderOriginal, path]

/-- Key of the resized variant from the already-split name and format. -/
def resizedKeyOf (env : EnvVar) (name fmt : GoStr) (w h : Int) : GoStr :=
  joinPath [env.folderResized, name,
    'w' :: goIntStr w ++ 'h' :: goIntStr h ++ '.' :: fmt]

/-- Key of the resized variant as the handler derives it from the raw path. -/
def resizedKeyOfPath (env : EnvVar) (path : GoStr) (w h : Int) : GoStr :=
  resizedKeyOf env (pathName path) (pathFormat path) w h

/-! ### Resolution engine -/

/-- Message `"failed converting w into integer"`. -/
def wConvErr : GoStr := gs ("failed converting w into integer")
/-- Message `"if specified, w must be larger than 0"`. -/
def wPosErr : GoStr := gs ("if specified, w must be larger than 0")
/-- Message `"failed converting h into integer"`. -/
def hConvErr : GoStr := gs ("failed converting h into integer")
/-- Message `"if specified, h must be larger than 0"`. -/
def hPosErr : GoStr := gs ("if specified, h must be larger than 0")

/-- Parsing of one dimension query value: absent means 0 (no constraint);
present must `strconv.Atoi` (else `convErr`) to a value `> 0`
(else `posErr`). -/
def parseDim (q : Option GoStr) (convErr posErr : GoStr) : Except GoStr Int :=
  match q with
  | none => .ok 0
  | some s =>
    match goAtoi s with
    | none => .error convErr
    | some n => if n ≤ 0 then .error posErr else .ok n

/-- The encode switch on the decode-detected format: `"jpeg"` and `"png"`
have cases; any other format leaves the buffer empty (no `default`). -/
def encodeBuf (ops : ImgOps) (format : GoStr) (dst : Img) :
    Except GoStr (List Nat) :=
  if format = gs ("jpeg") then ops.encodeJPEG dst
  else if format = gs ("png") then ops.encodePNG dst
  else .ok []

/-- The store after a successful upload to `key`: that key now exists. -/
def Store.afterUpload (st : Store) (key : GoStr) : Store :=
  { st with check := fun k => if k = key then .ok true else st.check k }

/-- Cache-miss tail of the handler: download the original, decode,
resize, encode, upload to the resized key, redirect. -/
def resolveMiss (ops : ImgOps) (st : Store) (origKey rKey : GoStr)
    (w h : Int) : HResult :=
  match st.down origKey with
  | .errNotFound => ⟨.err 404 (statusText 404), [.download origKey], [], st⟩
  | .errForbidden => ⟨.err 403 (statusText 403), [.download origKey], [], st⟩
  | .errOther e => ⟨.err 500 (statusText 500), [.download origKey], [e], st⟩
  | .ok decoded contentType =>
    match decoded with
    | .err e => ⟨.err 500 (statusText 500), [.download origKey], [e], st⟩
    | .ok src format =>
      match encodeBuf ops format (ops.resize w h src) with
      | .error e =>
        ⟨.err 500 (statusText 500), [.download origKey, .transform], [e], st⟩
      | .ok buf =>
        match st.up rKey with
        | .errBadRequest =>
          ⟨.err 400 (statusText 400),
            [.download origKey, .transform, .upload rKey buf contentType], [], st⟩
        | .errOther e =>
          ⟨.err 500 (statusText 500),
            [.download origKey, .transform, .upload rKey buf contentType], [e], st⟩
        | .ok =>
          ⟨.redirect 303 (st.url rKey),
            [.download origKey, .transform, .upload rKey buf contentType], [],
            st.afterUpload rKey⟩

/-- Sized branch of the handler: compute the resized key, check it,
redirect on hit, otherwise run the cache-miss tail. -/
def resolveSized (ops : ImgOps) (st : Store) (origKey rKey : GoStr)
    (w h : Int) : HResult :=
  match st.check rKey with
  | .error e => ⟨.err 500 (statusText 500), [.check rKey], [e], st⟩
  | .ok true => ⟨.redirect 303 (st.url rKey), [.check rKey], [], st⟩
  | .ok false =>
    { resolveMiss ops st origKey rKey w h with
        trace := .check rKey :: (resolveMiss ops st origKey rKey w h).trace }

/-- The request handler (`handler` in the `server` package), one
invocation on a request, a store and the transform collaborator. -/
def handler (env : EnvVar) (ops : ImgOps) (st : Store) (r : Request) :
    HResult :=
  if imagePathMatch r.path then
    match st.check (originalKeyOf env r.path) with
    | .error e =>
      ⟨.err 500 (statusText 500), [.check (originalKeyOf env r.path)], [e], st⟩
    | .ok false =>
      ⟨.err 404 (statusText 404), [.check (originalKeyOf env r.path)], [], st⟩
    | .ok true =>
      match parseDim r.qw wConvErr wPosErr with
      | .error msg => ⟨.err 400 msg, [.check (originalKeyOf env r.path)], [], st⟩
      | .ok w =>
        match parseDim r.qh hConvErr hPosErr with
        | .error msg =>
          ⟨.err 400 msg, [.check (originalKeyOf env r.path)], [], st⟩
        | .ok h =>
          if w = 0 ∧ h = 0 then
            ⟨.redirect 303 (st.url (originalKeyOf env r.path)),
              [.check (originalKeyOf env r.path)], [], st⟩
          else
            { resolveSized ops st (originalKeyOf env r.path)
                  (resizedKeyOfPath env r.path w h) w h with
                trace := .check (originalKeyOf env r.path) ::
                  (resolveSized ops st (originalKeyOf env r.path)
                    (resizedKeyOfPath env r.path w h) w h).trace }
  else ⟨.err 400 (gs ("invalid image path")), [], [], st⟩

/-! ### Storage adapter (`internal/storage/storage.go`) -/

/-- Outcome of a raw S3 SDK call as the adapter distinguishes it:
success, a `smithyhttp.ResponseError` with an HTTP status, or any other
error value. -/
inductive BackendRes where
  | ok
  | httpError (status : Nat) (msg : GoStr)
  | genericError (msg : GoStr)
deriving DecidableEq

/-- Model of `S3Client.CheckObject`: `HeadObject` success means the object exists;
a `ResponseError` with status 404 means it does not (no error); every
other failure is returned as an error. -/
def checkObject (headObject : GoStr → BackendRes) (key : GoStr) :
    Except GoStr Bool :=
  match headObject key with
  | .ok => .ok true
  | .httpError status msg =>
    if status = 404 then .ok false else .error msg
  | .genericError msg => .error msg

/-- Model of `S3Client.UploadObject` error translation: a `ResponseError` with
status 400 becomes `ErrBadRequest`; any other failure is passed through. -/
def uploadObjectErr (putObject : GoStr → BackendRes) (key : GoStr) :
    UpRes :=
  match putObject key with
  | .ok => .ok
  | .httpError status msg =>
    if status = 400 then .errBadRequest else .errOther msg
  | .genericError msg => .errOther msg

/-! ## Witness fixtures: one concrete environment, transform and store -/

/-- Concrete configuration used by witnesses. -/
def envW : EnvVar := ⟨gs ("bkt"), gs ("original"), gs ("resized")⟩

/-- Concrete transform collaborator used by witnesses. -/
def opsW : ImgOps where
  resize _ _ i := ⟨i.id + 1⟩
  encodeJPEG i := .ok [i.id, 1]
  encodePNG i := .ok [i.id, 2]

/-- Concrete store used by witnesses: it holds only the original
`original/cat.jpeg` (a JPEG), and accepts every upload. -/
def stW : Store where
  check k := if k = gs ("original/cat.jpeg") then .ok true else .ok false
  down k := if k = gs ("original/cat.jpeg")
    then .ok (.ok ⟨7⟩ (gs ("jpeg"))) (gs ("image/jpeg")) else .errNotFound
  up _ := .ok
  url k := gs ("url/") ++ k

/-! ## Claims -/

/-- Claim C7: a request whose path segment fails the `<name>.<ext>` pattern is
answered with HTTP 400 `invalid image path`, and no storage call of any
kind is made (empty effect trace, store untouched). -/
theorem c7_invalid_path_rejected_without_storage_calls
    (env : EnvVar) (ops : ImgOps) (st : Store) (r : Request)
    (hm : imagePathMatch r.path = false) :
    (handler env ops st r).resp = .err 400 (gs ("invalid image path")) ∧
    (handler env ops st r).trace = [] ∧
    (handler env ops st r).store = st := by
  simp [handler, hm]

/-- Claim C7 witness: the request `dog.gif` at the concrete store. -/
theorem c7_invalid_path_rejected_without_storage_calls_witness :
    (handler envW opsW stW ⟨gs ("dog.gif"), none, none⟩).resp
      = .err 400 (gs ("invalid image path")) ∧
    (handler envW opsW stW ⟨gs ("dog.gif"), none, none⟩).trace = [] ∧
    (handler envW opsW stW ⟨gs ("dog.gif"), none, none⟩).store = stW :=
  c7_invalid_path_rejected_without_storage_calls envW opsW stW _ (by decide)

/-- Claim C3: a valid request for an existing original with neither `w` nor `h`
supplied is answered with a redirect to the original key's URL; the only
storage call is the original-existence check (no download, transform or
upload) and the store is unchanged. -/
theorem c3_no_dimensions_redirects_to_original
    (env : EnvVar) (ops : ImgOps) (st : Store) (r : Request)
    (hm : imagePathMatch r.path = true)
    (hc : st.check (originalKeyOf env r.path) = .ok true)
    (hw : r.qw = none) (hh : r.qh = none) :
    (handler env ops st r).resp
      = .redirect 303 (st.url (originalKeyOf env r.path)) ∧
    (handler env ops st r).trace = [.check (originalKeyOf env r.path)] ∧
    (handler env ops st r).store = st := by
  simp [handler, hm, hc, hw, hh, parseDim]

/-- Claim C3 witness: `cat.jpeg` with no query at the concrete store. -/
theorem c3_no_dimensions_redirects_to_original_witness :
    (handler envW opsW stW ⟨gs ("cat.jpeg"), none, none⟩).resp
      = .redirect 303 (stW.url (originalKeyOf envW (gs ("cat.jpeg")))) ∧
    (handler envW opsW stW ⟨gs ("cat.jpeg"), none, none⟩).trace
      = [.check (originalKeyOf envW (gs ("cat.jpeg")))] ∧
    (handler envW opsW stW ⟨gs ("cat.jpeg"), none, none⟩).store = stW :=
  c3_no_dimensions_redirects_to_original envW opsW stW _
    (by decide) (by decide) rfl rfl

/-- Claim C4: a valid request with at least one dimension whose resized key
already exists is answered with a redirect to that key's URL; the only
storage calls are the two existence checks (no download, transform or
upload) and the store is unchanged. -/
theorem c4_cache_hit_redirects_without_work
    (env : EnvVar) (ops : ImgOps) (st : Store) (r : Request) (w h : Int)
    (hm : imagePathMatch r.path = true)
    (hc : st.check (originalKeyOf env r.path) = .ok true)
    (hw : parseDim r.qw wConvErr wPosErr = .ok w)
    (hh : parseDim r.qh hConvErr hPosErr = .ok h)
    (hnz : ¬(w = 0 ∧ h = 0))
    (hr : st.check (resizedKeyOfPath env r.path w h) = .ok true) :
    (handler env ops st r).resp
      = .redirect 303 (st.url (resizedKeyOfPath env r.path w h)) ∧
    (handler env ops st r).trace
      = [.check (originalKeyOf env r.path),
         .check (resizedKeyOfPath env r.path w h)] ∧
    (handler env ops st r).store = st := by
  rw [resizedKeyOfPath] at hr
  simp [handler, resolveSized, hm, hc, hw, hh, hnz, hr, resizedKeyOfPath]

/-- Claim C4 witness: `cat.jpeg?w=600` when `resized/cat/w600h0.jpeg` already
exists in the store. -/
theorem c4_cache_hit_redirects_without_work_witness :
    (handler envW opsW
        { stW with check := fun k =>
            if k = gs ("resized/cat/w600h0.jpeg") then .ok true else stW.check k }
        ⟨gs ("cat.jpeg"), some (gs ("600")), none⟩).resp
      = .redirect 303
          ((stW.url (resizedKeyOfPath envW (gs ("cat.jpeg")) 600 0))) ∧
    (handler envW opsW
        { stW with check := fun k =>
            if k = gs ("resized/cat/w600h0.jpeg") then .ok true else stW.check k }
        ⟨gs ("cat.jpeg"), some (gs ("600")), none⟩).trace
      = [.check (originalKeyOf envW (gs ("cat.jpeg"))),
         .check (resizedKeyOfPath envW (gs ("cat.jpeg")) 600 0)] ∧
    (handler envW opsW
        { stW with check := fun k =>
            if k = gs ("resized/cat/w600h0.jpeg") then .ok true else stW.check k }
        ⟨gs ("cat.jpeg"), some (gs ("600")), none⟩).store
      = { stW with check := fun k =>
            if k = gs ("resized/cat/w600h0.jpeg") then .ok true else stW.check k } :=
  c4_cache_hit_redirects_without_work envW opsW _ _ 600 0
    (by decide) (by decide) (by decide) (by decide) (by decide) (by decide)

/-- A present query value that is non-numeric or whose value is not
positive (the condition C6 quantifies over). -/
def BadDim (q : Option GoStr) : Prop :=
  ∃ s, q = some s ∧
    (goAtoi s = none ∨ ∃ n, goAtoi s = some n ∧ n ≤ 0)

/-- A supplied bad dimension makes `parseDim` fail with one of its two
message arguments. -/
theorem parseDim_error_of_badDim {q : Option GoStr} (c p : GoStr)
    (hb : BadDim q) :
    parseDim q c p = .error c ∨ parseDim q c p = .error p := by
  obtain ⟨s, hq, hbad⟩ := hb
  subst hq
  rcases hbad with hnone | ⟨n, hs, hle⟩
  · left; simp [parseDim, hnone]
  · right; simp [parseDim, hs, hle]

/-- Claim C6: a request for an existing original that supplies `w` or `h` with
a non-numeric or non-positive value (including an explicit `0`) is
answered with HTTP 400; omitting the parameter instead parses to the
no-constraint value 0 and is not an error. -/
theorem c6_invalid_query_rejected
    (env : EnvVar) (ops : ImgOps) (st : Store) (r : Request)
    (hm : imagePathMatch r.path = true)
    (hc : st.check (originalKeyOf env r.path) = .ok true)
    (hb : BadDim r.qw ∨ BadDim r.qh) :
    (handler env ops st r).resp.status = 400 ∧
    (∀ c p, parseDim none c p = .ok 0) := by
  refine ⟨?_, fun _ _ => rfl⟩
  rcases hb with hbw | hbh
  · rcases parseDim_error_of_badDim wConvErr wPosErr hbw with hw | hw <;>
      simp [handler, hm, hc, hw, HResp.status]
  · rcases hpw : parseDim r.qw wConvErr wPosErr with msg | w
    · simp [handler, hm, hc, hpw, HResp.status]
    · rcases parseDim_error_of_badDim hConvErr hPosErr hbh with hh | hh <;>
        simp [handler, hm, hc, hpw, hh, HResp.status]

/-- Claim C6 witness: `cat.jpeg?w=0` (explicit zero) at the concrete store. -/
theorem c6_invalid_query_rejected_witness :
    (handler envW opsW stW ⟨gs ("cat.jpeg"), some (gs ("0")), none⟩).resp.status
      = 400 ∧
    (∀ c p, parseDim none c p = .ok 0) :=
  c6_invalid_query_rejected envW opsW stW _ (by decide) (by decide)
    (Or.inl ⟨gs ("0"), rfl, Or.inr ⟨0, by decide, by decide⟩⟩)

/-- After a successful upload to `k`, checking `k` reports existence. -/
theorem Store.afterUpload_check_self (st : Store) (k : GoStr) :
    (st.afterUpload k).check k = .ok true := by
  simp [Store.afterUpload]

/-- A key that existed keeps existing after an upload to any key. -/
theorem Store.afterUpload_check_ok (st : Store) (k k' : GoStr)
    (h : st.check k' = .ok true) :
    (st.afterUpload k).check k' = .ok true := by
  simp only [Store.afterUpload]
  split <;> simp [h]

/-- Uploading changes no public URL. -/
theorem Store.afterUpload_url (st : Store) (k : GoStr) :
    (st.afterUpload k).url = st.url := rfl

/-- Claim C2: on a cache miss (valid request, original exists, a dimension
given, resized key absent) whose download, decode, encode and upload all
succeed, the handler issues exactly the trace
check–check–download–transform–upload — so exactly one download, one
transform and one upload, and no second existence check of the resized
key — responds with a redirect to the resized key's URL, and leaves a
store in which the identical request is a cache hit: the second run does
only the two existence checks and redirects to the same URL. -/
theorem c2_cache_miss_downloads_transforms_uploads_once
    (env : EnvVar) (ops : ImgOps) (st : Store) (r : Request)
    (w h : Int) (img : Img) (fmt ct : GoStr) (buf : List Nat)
    (hm : imagePathMatch r.path = true)
    (hc : st.check (originalKeyOf env r.path) = .ok true)
    (hw : parseDim r.qw wConvErr wPosErr = .ok w)
    (hh : parseDim r.qh hConvErr hPosErr = .ok h)
    (hnz : ¬(w = 0 ∧ h = 0))
    (hr : st.check (resizedKeyOfPath env r.path w h) = .ok false)
    (hd : st.down (originalKeyOf env r.path) = .ok (.ok img fmt) ct)
    (he : encodeBuf ops fmt (ops.resize w h img) = .ok buf)
    (hu : st.up (resizedKeyOfPath env r.path w h) = .ok) :
    (handler env ops st r).resp
      = .redirect 303 (st.url (resizedKeyOfPath env r.path w h)) ∧
    (handler env ops st r).trace
      = [.check (originalKeyOf env r.path),
         .check (resizedKeyOfPath env r.path w h),
         .download (originalKeyOf env r.path), .transform,
         .upload (resizedKeyOfPath env r.path w h) buf ct] ∧
    (handler env ops st r).store
      = st.afterUpload (resizedKeyOfPath env r.path w h) ∧
    (handler env ops (handler env ops st r).store r).resp
      = .redirect 303 (st.url (resizedKeyOfPath env r.path w h)) ∧
    (handler env ops (handler env ops st r).store r).trace
      = [.check (originalKeyOf env r.path),
         .check (resizedKeyOfPath env r.path w h)] := by
  have hrun :
      handler env ops st r
        = ⟨.redirect 303 (st.url (resizedKeyOfPath env r.path w h)),
          [.check (originalKeyOf env r.path),
           .check (resizedKeyOfPath env r.path w h),
           .download (originalKeyOf env r.path), .transform,
           .upload (resizedKeyOfPath env r.path w h) buf ct],
          [],
          st.afterUpload (resizedKeyOfPath env r.path w h)⟩ := by
    simp [handler, resolveSized, resolveMiss, hm, hc, hw, hh, hnz, hr, hd, he,
      hu]
  refine ⟨by rw [hrun], by rw [hrun], by rw [hrun], ?_, ?_⟩ <;>
  · rw [hrun]
    simp [handler, resolveSized, hm, hw, hh, hnz,
      Store.afterUpload_check_ok st _ _ hc, Store.afterUpload_check_self,
      Store.afterUpload_url]

/-- Claim C2 witness: `cat.jpeg?w=600` at the concrete store, where
`resized/cat/w600h0.jpeg` is absent. -/
theorem c2_cache_miss_downloads_transforms_uploads_once_witness :
    (handler envW opsW stW ⟨gs ("cat.jpeg"), some (gs ("600")), none⟩).resp
      = .redirect 303
          (stW.url (resizedKeyOfPath envW (gs ("cat.jpeg")) 600 0)) ∧
    (handler envW opsW stW ⟨gs ("cat.jpeg"), some (gs ("600")), none⟩).trace
      = [.check (originalKeyOf envW (gs ("cat.jpeg"))),
         .check (resizedKeyOfPath envW (gs ("cat.jpeg")) 600 0),
         .download (originalKeyOf envW (gs ("cat.jpeg"))), .transform,
         .upload (resizedKeyOfPath envW (gs ("cat.jpeg")) 600 0) [8, 1]
           (gs ("image/jpeg"))] ∧
    (handler envW opsW stW ⟨gs ("cat.jpeg"), some (gs ("600")), none⟩).store
      = stW.afterUpload (resizedKeyOfPath envW (gs ("cat.jpeg")) 600 0) ∧
    (handler envW opsW
        (handler envW opsW stW ⟨gs ("cat.jpeg"), some (gs ("600")), none⟩).store
        ⟨gs ("cat.jpeg"), some (gs ("600")), none⟩).resp
      = .redirect 303
          (stW.url (resizedKeyOfPath envW (gs ("cat.jpeg")) 600 0)) ∧
    (handler envW opsW
        (handler envW opsW stW ⟨gs ("cat.jpeg"), some (gs ("600")), none⟩).store
        ⟨gs ("cat.jpeg"), some (gs ("600")), none⟩).trace
      = [.check (originalKeyOf envW (gs ("cat.jpeg"))),
         .check (resizedKeyOfPath envW (gs ("cat.jpeg")) 600 0)] :=
  c2_cache_miss_downloads_transforms_uploads_once envW opsW stW _ 600 0
    ⟨7⟩ (gs ("jpeg")) (gs ("image/jpeg")) [8, 1]
    (by decide) (by decide) (by decide) (by decide) (by decide) (by decide)
    (by decide) (by decide) (by decide)

/-- Store for the C5 analysis: like `stW` but the backend rejects every
upload with the bad-request (entity too large) condition. -/
def stBadUp : Store := { stW with up := fun _ => .errBadRequest }

/-- Claim C5 counterexample: at a concrete request that reaches the upload step
and whose upload the backend rejects as `storage.ErrBadRequest`, the
handler's status is 400, not the claimed 413. -/
theorem c5_bad_request_upload_counterexample :
    stBadUp.up (resizedKeyOfPath envW (gs ("cat.jpeg")) 600 0)
      = UpRes.errBadRequest ∧
    (handler envW opsW stBadUp ⟨gs ("cat.jpeg"), some (gs ("600")), none⟩).trace
      = [.check (originalKeyOf envW (gs ("cat.jpeg"))),
         .check (resizedKeyOfPath envW (gs ("cat.jpeg")) 600 0),
         .download (originalKeyOf envW (gs ("cat.jpeg"))), .transform,
         .upload (resizedKeyOfPath envW (gs ("cat.jpeg")) 600 0) [8, 1]
           (gs ("image/jpeg"))] ∧
    (handler envW opsW stBadUp ⟨gs ("cat.jpeg"), some (gs ("600")), none⟩).resp.status
      = 400 ∧
    (handler envW opsW stBadUp ⟨gs ("cat.jpeg"), some (gs ("600")), none⟩).resp.status
      ≠ 413 := by decide

/-- Claim C5 (amended): when the storage backend rejects the upload with the
bad-request/too-large condition (`storage.ErrBadRequest`), the handler
responds with HTTP 400 Bad Request (translated 1:1 from the backend
status, not 413). -/
theorem c5_bad_request_upload_maps_to_400
    (env : EnvVar) (ops : ImgOps) (st : Store) (r : Request)
    (w h : Int) (img : Img) (fmt ct : GoStr) (buf : List Nat)
    (hm : imagePathMatch r.path = true)
    (hc : st.check (originalKeyOf env r.path) = .ok true)
    (hw : parseDim r.qw wConvErr wPosErr = .ok w)
    (hh : parseDim r.qh hConvErr hPosErr = .ok h)
    (hnz : ¬(w = 0 ∧ h = 0))
    (hr : st.check (resizedKeyOfPath env r.path w h) = .ok false)
    (hd : st.down (originalKeyOf env r.path) = .ok (.ok img fmt) ct)
    (he : encodeBuf ops fmt (ops.resize w h img) = .ok buf)
    (hu : st.up (resizedKeyOfPath env r.path w h) = .errBadRequest) :
    (handler env ops st r).resp = .err 400 (statusText 400) ∧
    (handler env ops st r).store = st := by
  simp [handler, resolveSized, resolveMiss, hm, hc, hw, hh, hnz, hr, hd, he,
    hu]

/-- Claim C5 witness: the same concrete request as the counterexample, through
the amended theorem. -/
theorem c5_bad_request_upload_maps_to_400_witness :
    (handler envW opsW stBadUp ⟨gs ("cat.jpeg"), some (gs ("600")), none⟩).resp
      = .err 400 (statusText 400) ∧
    (handler envW opsW stBadUp ⟨gs ("cat.jpeg"), some (gs ("600")), none⟩).store
      = stBadUp :=
  c5_bad_request_upload_maps_to_400 envW opsW stBadUp _ 600 0 ⟨7⟩
    (gs ("jpeg")) (gs ("image/jpeg")) [8, 1]
    (by decide) (by decide) (by decide) (by decide) (by decide) (by decide)
    (by decide) (by decide) (by decide)

/-- Store for the C10 analysis: the original `cat.jpeg` exists but its
bytes decode as a GIF (`image.Decode` reports format `"gif"`). -/
def stGif : Store :=
  { stW with down := fun k =>
      if k = gs ("original/cat.jpeg")
      then .ok (.ok ⟨7⟩ (gs ("gif"))) (gs ("image/jpeg")) else .errNotFound }

/-- Claim C10: on a cache miss whose original decodes with a format other than
`"jpeg"` or `"png"`, no encode case matches (and there is no default), so
the handler uploads a zero-length body under the original content type
and still responds with a redirect to the resized key. -/
theorem c10_foreign_format_uploads_empty_body
    (env : EnvVar) (ops : ImgOps) (st : Store) (r : Request)
    (w h : Int) (img : Img) (fmt ct : GoStr)
    (hm : imagePathMatch r.path = true)
    (hc : st.check (originalKeyOf env r.path) = .ok true)
    (hw : parseDim r.qw wConvErr wPosErr = .ok w)
    (hh : parseDim r.qh hConvErr hPosErr = .ok h)
    (hnz : ¬(w = 0 ∧ h = 0))
    (hr : st.check (resizedKeyOfPath env r.path w h) = .ok false)
    (hd : st.down (originalKeyOf env r.path) = .ok (.ok img fmt) ct)
    (hf1 : fmt ≠ gs ("jpeg")) (hf2 : fmt ≠ gs ("png"))
    (hu : st.up (resizedKeyOfPath env r.path w h) = .ok) :
    (handler env ops st r).trace
      = [.check (originalKeyOf env r.path),
         .check (resizedKeyOfPath env r.path w h),
         .download (originalKeyOf env r.path), .transform,
         .upload (resizedKeyOfPath env r.path w h) [] ct] ∧
    (handler env ops st r).resp
      = .redirect 303 (st.url (resizedKeyOfPath env r.path w h)) := by
  have he : encodeBuf ops fmt (ops.resize w h img) = .ok [] := by
    simp [encodeBuf, hf1, hf2]
  simp [handler, resolveSized, resolveMiss, hm, hc, hw, hh, hnz, hr, hd, he,
    hu]

/-- Claim C10 witness: `cat.jpeg?w=600` when the stored original is really a
GIF. -/
theorem c10_foreign_format_uploads_empty_body_witness :
    (handler envW opsW stGif ⟨gs ("cat.jpeg"), some (gs ("600")), none⟩).trace
      = [.check (originalKeyOf envW (gs ("cat.jpeg"))),
         .check (resizedKeyOfPath envW (gs ("cat.jpeg")) 600 0),
         .download (originalKeyOf envW (gs ("cat.jpeg"))), .transform,
         .upload (resizedKeyOfPath envW (gs ("cat.jpeg")) 600 0) []
           (gs ("image/jpeg"))] ∧
    (handler envW opsW stGif ⟨gs ("cat.jpeg"), some (gs ("600")), none⟩).resp
      = .redirect 303
          (stGif.url (resizedKeyOfPath envW (gs ("cat.jpeg")) 600 0)) :=
  c10_foreign_format_uploads_empty_body envW opsW stGif _ 600 0 ⟨7⟩
    (gs ("gif")) (gs ("image/jpeg"))
    (by decide) (by decide) (by decide) (by decide) (by decide) (by decide)
    (by decide) (by decide) (by decide) (by decide)

/-- Claim C8: `CheckObject` reports a backend 404 as `(false, nil)` — existence
`false` with no error — and returns an error only when the backend call
failed some other way (a non-404 HTTP response error or a generic
failure); not-found never surfaces as an error. -/
theorem c8_check_object_not_found_is_false_not_error
    (headObject : GoStr → BackendRes) (key : GoStr) :
    (∀ msg, headObject key = .httpError 404 msg →
      checkObject headObject key = .ok false) ∧
    (∀ e, checkObject headObject key = .error e →
      headObject key ≠ .ok ∧ ∀ msg, headObject key ≠ .httpError 404 msg) := by
  constructor
  · intro msg hmsg
    simp [checkObject, hmsg]
  · intro e herr
    cases hho : headObject key with
    | ok => simp [checkObject, hho] at herr
    | httpError status msg =>
      refine ⟨by simp [hho], fun m hm => ?_⟩
      cases hm
      simp [checkObject, hho] at herr
    | genericError msg => simp [hho]

/-- Claim C8 witness: a backend whose `HeadObject` always answers 404. -/
theorem c8_check_object_not_found_is_false_not_error_witness :
    (∀ msg,
      (fun _ : GoStr => BackendRes.httpError 404 (gs ("no such key"))) (gs ("k"))
        = .httpError 404 msg →
      checkObject (fun _ => BackendRes.httpError 404 (gs ("no such key")))
        (gs ("k")) = .ok false) ∧
    (∀ e,
      checkObject (fun _ => BackendRes.httpError 404 (gs ("no such key")))
          (gs ("k")) = .error e →
      (fun _ : GoStr => BackendRes.httpError 404 (gs ("no such key"))) (gs ("k"))
          ≠ .ok ∧
      ∀ msg,
        (fun _ : GoStr => BackendRes.httpError 404 (gs ("no such key"))) (gs ("k"))
          ≠ .httpError 404 msg) :=
  c8_check_object_not_found_is_false_not_error
    (fun _ => BackendRes.httpError 404 (gs ("no such key"))) (gs ("k"))


/-- Same shape for `check` results: equal successes, or both failures
(the carried error message is allowed to differ). -/
def exceptShapeB : Except GoStr Bool → Except GoStr Bool → Bool
  | .ok a, .ok b => a == b
  | .error _, .error _ => true
  | _, _ => false

/-- Same shape for decode results modulo the error message. -/
def decodeShapeB : DecodeRes → DecodeRes → Bool
  | .ok i f, .ok i' f' => i == i' && f == f'
  | .err _, .err _ => true
  | _, _ => false

/-- Same shape for download results modulo error messages. -/
def downShapeB : DownRes → DownRes → Bool
  | .ok d c, .ok d' c' => decodeShapeB d d' && c == c'
  | .errNotFound, .errNotFound => true
  | .errForbidden, .errForbidden => true
  | .errOther _, .errOther _ => true
  | _, _ => false

/-- Same shape for upload results modulo the error message. -/
def upShapeB : UpRes → UpRes → Bool
  | .ok, .ok => true
  | .errBadRequest, .errBadRequest => true
  | .errOther _, .errOther _ => true
  | _, _ => false

/-- Two stores that differ at most in the content of backend error
messages: every call has the same outcome shape and every success the
same payload, but a failing call may carry any message. -/
structure StoreErrEquiv (st st' : Store) : Prop where
  check : ∀ k, exceptShapeB (st.check k) (st'.check k) = true
  down : ∀ k, downShapeB (st.down k) (st'.down k) = true
  up : ∀ k, upShapeB (st.up k) (st'.up k) = true
  url : st.url = st'.url

theorem downShapeB_refl (x : DownRes) : downShapeB x x = true := by
  cases x with
  | ok d c => cases d <;> simp [downShapeB, decodeShapeB]
  | errNotFound => rfl
  | errForbidden => rfl
  | errOther m => rfl

theorem upShapeB_refl (x : UpRes) : upShapeB x x = true := by
  cases x <;> rfl

theorem exceptShapeB_refl (x : Except GoStr Bool) :
    exceptShapeB x x = true := by
  cases x <;> simp [exceptShapeB]

theorem resolveMiss_resp_congr (ops : ImgOps) (st st' : Store)
    (okey rkey : GoStr) (w h : Int)
    (hd : downShapeB (st.down okey) (st'.down okey) = true)
    (hu : upShapeB (st.up rkey) (st'.up rkey) = true)
    (hurl : st.url = st'.url) :
    (resolveMiss ops st okey rkey w h).resp
      = (resolveMiss ops st' okey rkey w h).resp := by
  unfold resolveMiss
  cases h1 : st.down okey <;> cases h2 : st'.down okey <;> rw [h1, h2] at hd
  case ok.ok d c d' c' =>
    simp only [downShapeB, Bool.and_eq_true, beq_iff_eq] at hd
    obtain ⟨hdc, hcc⟩ := hd
    subst hcc
    cases d <;> cases d'
    case ok.ok i f i' f' =>
      simp only [decodeShapeB, Bool.and_eq_true, beq_iff_eq] at hdc
      obtain ⟨hi, hf⟩ := hdc
      subst hi; subst hf
      cases he : encodeBuf ops f (ops.resize w h i) with
      | error e => simp [he]
      | ok buf =>
        cases h3 : st.up rkey <;> cases h4 : st'.up rkey <;> rw [h3, h4] at hu
        case ok.ok => simp [he, hurl]
        case errBadRequest.errBadRequest => simp [he]
        case errOther.errOther e e' => simp [he]
        all_goals simp [upShapeB] at hu
    case err.err e e' => simp
    all_goals simp [decodeShapeB] at hdc
  all_goals simp [downShapeB] at hd

theorem resolveSized_resp_congr (ops : ImgOps) (st st' : Store)
    (okey rkey : GoStr) (w h : Int) (heq : StoreErrEquiv st st') :
    (resolveSized ops st okey rkey w h).resp
      = (resolveSized ops st' okey rkey w h).resp := by
  unfold resolveSized
  have hck := heq.check rkey
  cases h1 : st.check rkey <;> cases h2 : st'.check rkey <;> rw [h1, h2] at hck
  case ok.ok a b =>
    simp only [exceptShapeB, beq_iff_eq] at hck
    subst hck
    cases a
    · exact resolveMiss_resp_congr ops st st' okey rkey w h
        (heq.down okey) (heq.up rkey) heq.url
    · simp [heq.url]
  all_goals simp [exceptShapeB] at hck

theorem handler_resp_congr (env : EnvVar) (ops : ImgOps) (st st' : Store)
    (r : Request) (heq : StoreErrEquiv st st') :
    (handler env ops st r).resp = (handler env ops st' r).resp := by
  unfold handler
  cases hm : imagePathMatch r.path
  · simp
  · simp only [Bool.true_eq, if_true]
    have hck := heq.check (originalKeyOf env r.path)
    cases h1 : st.check (originalKeyOf env r.path) <;>
      cases h2 : st'.check (originalKeyOf env r.path) <;> rw [h1, h2] at hck
    case ok.ok a b =>
      simp only [exceptShapeB, beq_iff_eq] at hck
      subst hck
      cases a
      · simp
      · cases hpw : parseDim r.qw wConvErr wPosErr with
        | error msg => simp
        | ok w =>
          cases hph : parseDim r.qh hConvErr hPosErr with
          | error msg => simp
          | ok h =>
            by_cases hwh : w = 0 ∧ h = 0
            · simp [hwh, heq.url]
            · simp only [hwh, if_false]
              exact resolveSized_resp_congr ops st st'
                (originalKeyOf env r.path) (resizedKeyOfPath env r.path w h)
                w h heq
    all_goals simp [exceptShapeB] at hck

theorem resolveMiss_500 (ops : ImgOps) (st : Store) (okey rkey : GoStr)
    (w h : Int) (b : GoStr)
    (hb : (resolveMiss ops st okey rkey w h).resp = .err 500 b) :
    b = statusText 500 ∧
      ∃ e, (resolveMiss ops st okey rkey w h).log = [e] := by
  unfold resolveMiss at hb ⊢
  revert hb
  cases h1 : st.down okey <;> intro hb
  case ok d c =>
    revert hb
    cases d <;> intro hb
    case ok i f =>
      revert hb
      cases he : encodeBuf ops f (ops.resize w h i) <;> intro hb
      case error e => simp_all
      case ok buf =>
        revert hb
        cases h2 : st.up rkey <;> intro hb <;> simp_all
    case err e => simp_all
  all_goals simp_all

theorem resolveSized_500 (ops : ImgOps) (st : Store) (okey rkey : GoStr)
    (w h : Int) (b : GoStr)
    (hb : (resolveSized ops st okey rkey w h).resp = .err 500 b) :
    b = statusText 500 ∧
      ∃ e, (resolveSized ops st okey rkey w h).log = [e] := by
  unfold resolveSized at hb ⊢
  revert hb
  cases h1 : st.check rkey <;> intro hb
  case error e => simp_all
  case ok a =>
    revert hb
    cases a <;> intro hb
    · exact resolveMiss_500 ops st okey rkey w h b hb
    · simp_all

theorem handler_500 (env : EnvVar) (ops : ImgOps) (st : Store) (r : Request)
    (b : GoStr) (hb : (handler env ops st r).resp = .err 500 b) :
    b = statusText 500 ∧ ∃ e, (handler env ops st r).log = [e] := by
  unfold handler at hb ⊢
  revert hb
  cases hm : imagePathMatch r.path <;> intro hb
  · simp_all
  · simp only [Bool.true_eq, if_true] at hb ⊢
    revert hb
    cases h1 : st.check (originalKeyOf env r.path) <;> intro hb
    case error e => simp_all
    case ok a =>
      revert hb
      cases a <;> intro hb
      · simp_all
      · revert hb
        cases hpw : parseDim r.qw wConvErr wPosErr <;> intro hb
        case error msg => simp_all
        case ok w =>
          revert hb
          cases hph : parseDim r.qh hConvErr hPosErr <;> intro hb
          case error msg => simp_all
          case ok h =>
            by_cases hwh : w = 0 ∧ h = 0
            · simp_all
            · simp only [hwh, if_false] at hb ⊢
              exact resolveSized_500 ops st (originalKeyOf env r.path)
                (resizedKeyOfPath env r.path w h) w h b hb


/-- Claim C9: internal failures are opaque to the client. For any two stores
that differ only in the content of backend error messages, the handler's
response is identical; and every 500 response has the fixed generic body
`http.StatusText(500)`, with exactly one error string (the underlying
cause) recorded in the server log. -/
theorem c9_internal_error_bodies_are_generic
    (env : EnvVar) (ops : ImgOps) (st st' : Store) (r : Request)
    (heq : StoreErrEquiv st st') :
    (handler env ops st r).resp = (handler env ops st' r).resp ∧
    ∀ b, (handler env ops st r).resp = .err 500 b →
      b = statusText 500 ∧ ∃ e, (handler env ops st r).log = [e] :=
  ⟨handler_resp_congr env ops st st' r heq,
   fun b hb => handler_500 env ops st r b hb⟩

/-- Store whose existence check always fails with one backend message. -/
def stErrA : Store :=
  { stW with check := fun _ => .error (gs ("dial tcp 10.0.0.1:443: timeout")) }

/-- Like `stErrA` with a different backend message. -/
def stErrB : Store :=
  { stW with check := fun _ => .error (gs ("InternalError: please retry")) }

/-- Claim C9 witness: two runs of `cat.jpeg` whose backends fail with different
messages, through the theorem. -/
theorem c9_internal_error_bodies_are_generic_witness :
    (handler envW opsW stErrA ⟨gs ("cat.jpeg"), none, none⟩).resp
      = (handler envW opsW stErrB ⟨gs ("cat.jpeg"), none, none⟩).resp ∧
    ∀ b,
      (handler envW opsW stErrA ⟨gs ("cat.jpeg"), none, none⟩).resp
        = .err 500 b →
      b = statusText 500 ∧
        ∃ e, (handler envW opsW stErrA ⟨gs ("cat.jpeg"), none, none⟩).log
          = [e] :=
  c9_internal_error_bodies_are_generic envW opsW stErrA stErrB _
    ⟨fun _ => rfl, fun _ => downShapeB_refl _, fun _ => upShapeB_refl _, rfl⟩


theorem goSplit_no_sep (sep : Char) (l : GoStr) (h : sep ∉ l) :
    goSplit sep l = [l] := by
  induction l with
  | nil => rfl
  | cons c rest ih =>
    have hc : c ≠ sep := fun hcs => h (hcs ▸ List.mem_cons_self c rest)
    have hrest : sep ∉ rest := fun hm => h (List.mem_cons_of_mem c hm)
    simp [goSplit, hc, ih hrest]

theorem goSplit_append_sep (sep : Char) (name rest : GoStr)
    (h : sep ∉ name) :
    goSplit sep (name ++ sep :: rest) = name :: goSplit sep rest := by
  induction name with
  | nil => simp [goSplit]
  | cons c tl ih =>
    have hc : c ≠ sep := fun hcs => h (hcs ▸ List.mem_cons_self c tl)
    have htl : sep ∉ tl := fun hm => h (List.mem_cons_of_mem c hm)
    simp [goSplit, hc, ih htl]

theorem pathName_eq (name ext : GoStr) (h : '.' ∉ name) :
    pathName (name ++ '.' :: ext) = name := by
  simp [pathName, goSplit_append_sep '.' name ext h]

theorem pathFormat_eq (name ext : GoStr) (hn : '.' ∉ name)
    (he : '.' ∉ ext) :
    pathFormat (name ++ '.' :: ext) = ext := by
  simp [pathFormat, goSplit_append_sep '.' name ext hn,
    goSplit_no_sep '.' ext he]

theorem joinPath_three (a b c : GoStr) (ha : a ≠ []) (hb : b ≠ [])
    (hc : c ≠ []) :
    joinPath [a, b, c] = a ++ '/' :: (b ++ '/' :: c) := by
  simp [joinPath, ha, hb, hc, List.intercalate]

theorem imagePathMatch_concat (name ext : GoStr) (hext : ext ∈ validExts)
    (hns : '/' ∉ name) (hne : name ≠ []) :
    imagePathMatch (name ++ '.' :: ext) = true := by
  have hes : '/' ∉ ext := by
    fin_cases hext <;> decide
  have hmem : ∀ x, x ∈ name ++ '.' :: ext → x ≠ '/' := by
    intro x hx hx7
    subst hx7
    rcases List.mem_append.1 hx with hx | hx
    · exact hns hx
    · rcases List.mem_cons.1 hx with hx | hx
      · cases hx
      · exact hes hx
  simp only [imagePathMatch, Bool.and_eq_true, Bool.not_eq_true,
    List.any_eq_true]
  refine ⟨?_, ext, hext, ?_⟩
  · have hfalse : List.contains (name ++ '.' :: ext) '/' = false := by
      rw [List.contains_eq_any_beq, List.any_eq_false]
      intro x hx
      simp only [beq_iff_eq]
      exact fun hxx => hmem x hx hxx.symm
    simp only [Bool.not_eq_true', hfalse]
  · simp only [Bool.and_eq_true, List.isSuffixOf_iff_suffix,
      decide_eq_true_eq]
    constructor
    · exact ⟨name, rfl⟩
    · have : 1 ≤ name.length := by
        cases name with
        | nil => exact absurd rfl hne
        | cons _ _ => simp
      simp [List.length_append]
      omega


/-- Claim C1 (amended): validation accepts any dot-containing slash-free
segment ending in a valid extension, and the handler splits at the FIRST
dot, so the claimed key shape `<resizedFolder>/<name>/w<w>h<h>.<ext>`
holds exactly when the name part contains no dot (the path has a single
dot); under that restriction — plus the loader-guaranteed non-empty
resized folder — the key is as claimed, and it depends only on the
derived (name, format) pair and the two dimensions (omitted dimensions
appear as `0` since the handler leaves them at their zero value). -/
theorem c1_resized_key_scheme (env : EnvVar) (name ext : GoStr) (w h : Int)
    (hext : ext ∈ validExts) (hnd : '.' ∉ name) (hns : '/' ∉ name)
    (hne : name ≠ []) (hfr : env.folderResized ≠ []) :
    imagePathMatch (name ++ '.' :: ext) = true ∧
    resizedKeyOfPath env (name ++ '.' :: ext) w h
      = env.folderResized ++ '/' ::
          (name ++ '/' ::
            ('w' :: goIntStr w ++ 'h' :: goIntStr h ++ '.' :: ext)) ∧
    ∀ p, pathName p = name → pathFormat p = ext →
      resizedKeyOfPath env p w h
        = resizedKeyOfPath env (name ++ '.' :: ext) w h := by
  have hed : '.' ∉ ext := by fin_cases hext <;> decide
  refine ⟨imagePathMatch_concat name ext hext hns hne, ?_, ?_⟩
  · rw [resizedKeyOfPath, pathName_eq name ext hnd,
      pathFormat_eq name ext hnd hed, resizedKeyOf,
      joinPath_three _ _ _ hfr hne (by simp)]
  · intro p hp hf
    rw [resizedKeyOfPath, hp, hf, resizedKeyOfPath, pathName_eq name ext hnd,
      pathFormat_eq name ext hnd hed]

/-- Claim C1 counterexample: the path `a.b.jpeg` is accepted by validation (as
`<name>.<ext>` it reads name `a.b`, extension `jpeg`, since the regex
matches greedily), but the handler splits at the first dot and computes
the key `resized/a/w600h0.b`, not `resized/a.b/w600h0.jpeg`. -/
theorem c1_resized_key_scheme_counterexample :
    imagePathMatch (gs ("a.b.jpeg")) = true ∧
    resizedKeyOfPath envW (gs ("a.b.jpeg")) 600 0
      ≠ gs ("resized/a.b/w600h0.jpeg") ∧
    resizedKeyOfPath envW (gs ("a.b.jpeg")) 600 0 = gs ("resized/a/w600h0.b") := by
  decide

/-- Claim C1 witness: name `cat`, extension `jpeg`, `w=600`, `h` omitted. -/
theorem c1_resized_key_scheme_witness :
    imagePathMatch (gs ("cat") ++ '.' :: gs ("jpeg")) = true ∧
    resizedKeyOfPath envW (gs ("cat") ++ '.' :: gs ("jpeg")) 600 0
      = envW.folderResized ++ '/' ::
          (gs ("cat") ++ '/' ::
            ('w' :: goIntStr 600 ++ 'h' :: goIntStr 0 ++ '.' :: gs ("jpeg"))) ∧
    ∀ p, pathName p = gs ("cat") → pathFormat p = gs ("jpeg") →
      resizedKeyOfPath envW p 600 0
        = resizedKeyOfPath envW (gs ("cat") ++ '.' :: gs ("jpeg")) 600 0 :=
  c1_resized_key_scheme envW (gs ("cat")) (gs ("jpeg")) 600 0
    (by decide) (by decide) (by decide) (by decide) (by decide)

end ImageServer
